import Mathlib

/-!
# base-node-rpc: the `Node` command surface

A shallow embedding of `Arduino/base_node_rpc/Node.h`.

* Machine integers are natural numbers with explicit reduction modulo `2^w`
  (integers where the C++ type is signed).  The target is an AVR Arduino (the
  header uses `EEPROM`, `strcpy_P` and `PSTR`), where `int` and `size_t` are
  16 bits, `long` is 32 bits and `long long` is 64 bits wide.
* `PACKET_SIZE` is a preprocessor constant that `Node.h` uses but does not
  define; every definition that depends on it takes it as a parameter.
* The class `Node` becomes the structure `Node`; the peripherals it talks to
  (EEPROM, the `Wire` transceiver, the pin and timer library) are the remaining
  fields of `World`.  Member functions are state-passing functions on `World`.
* A store through a pointer outside the object it points into is undefined
  behaviour in C++; here it makes the enclosing operation return `none`.
-/

namespace BaseNodeRpc

/-! ## Integer types -/

/-- Conversion to `uint8_t`. -/
def to_uint8_t (n : Nat) : Nat := n % 2 ^ 8

/-- Conversion to `uint16_t`. -/
def to_uint16_t (n : Nat) : Nat := n % 2 ^ 16

/-- Conversion to `uint32_t`. -/
def to_uint32_t (n : Nat) : Nat := n % 2 ^ 32

/-- Conversion to `size_t`, which is a 16-bit unsigned integer on AVR. -/
def to_size_t (n : Nat) : Nat := n % 2 ^ 16

/-- Subtraction of two `size_t` values: unsigned, wrapping modulo `2^16`. -/
def size_t_sub (a b : Nat) : Nat := (to_size_t a + 2 ^ 16 - to_size_t b) % 2 ^ 16

/-- Multiplication of two `size_t` values: unsigned, wrapping modulo `2^16`. -/
def size_t_mul (a b : Nat) : Nat := (to_size_t a * to_size_t b) % 2 ^ 16

/-- The value of `sizeof(uint8_t)`. -/
def sizeof_uint8_t : Nat := 1

/-- The value of `sizeof(uint16_t)`. -/
def sizeof_uint16_t : Nat := 2

/-- Conversion of a signed value to `uint32_t`: reduction modulo `2^32`. -/
def int_to_uint32_t (x : Int) : Nat := (x % 2 ^ 32).toNat

/-- The largest value of type `int`, which is 16 bits wide on AVR. -/
def INT_MAX : Nat := 2 ^ 15 - 1

/-- `Node::max_payload_size` (Node.h lines 36-41).  `PACKET_SIZE` is an integer
constant, and each `sizeof` has type `size_t`.

* A constant up to `INT_MAX` has type `int`, of the same rank as `size_t`: the
  usual arithmetic conversions turn it into `size_t` and the whole expression
  is evaluated in `size_t`, unsigned and wrapping.
* A larger constant has type `long` or `long long`, which holds every `size_t`
  value: the `sizeof` operands are converted to that signed type and the
  subtractions are exact (they cannot overflow, the constant being positive).

The result is then converted to the return type `uint32_t`. -/
def max_payload_size (PACKET_SIZE : Nat) : Nat :=
  if PACKET_SIZE ≤ INT_MAX then
    to_uint32_t
      (size_t_sub
        (size_t_sub
          (size_t_sub (to_size_t PACKET_SIZE) (size_t_mul 3 sizeof_uint8_t))
          sizeof_uint16_t)
        sizeof_uint16_t)
  else
    int_to_uint32_t
      ((PACKET_SIZE : Int) - ((size_t_mul 3 sizeof_uint8_t : Nat) : Int)
        - ((sizeof_uint16_t : Nat) : Int) - ((sizeof_uint16_t : Nat) : Int))

/-! ## Pointers and array views -/

/-- The value of `sizeof(output_buffer)` for `uint8_t output_buffer[20]`
(Node.h line 22). -/
def sizeof_output_buffer : Nat := 20

/-- A data pointer: either into the node's own `output_buffer`, or an address
of memory outside the `Node` object (for instance a request buffer owned by
the caller). -/
inductive Ptr where
  | output_buffer (index : Nat)
  | ram (address : Nat)
  deriving DecidableEq, Repr

/-- Pointer arithmetic on byte pointers. -/
def Ptr.add : Ptr → Nat → Ptr
  | .output_buffer i, k => .output_buffer (i + k)
  | .ram a, k => .ram (a + k)

/-- The `UInt8Array` view of `Array.h`: a `uint16_t` length and a `uint8_t *`,
in the field order that the aggregate initialiser of Node.h line 26 uses. -/
structure UInt8Array where
  length : Nat
  data : Ptr
  deriving DecidableEq, Repr

/-- The `UInt32Array` view of `Array.h`: a length and a `uint32_t *`. -/
structure UInt32Array where
  length : Nat
  data : Ptr
  deriving DecidableEq, Repr

/-- The bus query object of `remote_i2c_command.h`, as far as `Node.h` uses
it: it is constructed from the array view it is to work on. -/
structure i2c_query where
  array : UInt8Array
  deriving DecidableEq, Repr

/-! ## The node and its surroundings -/

/-- The data members of `class Node` (Node.h lines 21-23). -/
structure Node where
  i2c_address_ : Nat
  output_buffer : Fin 20 → Nat
  i2c_query_ : i2c_query

/-- The offset `Node::EEPROM__I2C_ADDRESS` (Node.h line 20). -/
def EEPROM__I2C_ADDRESS : Nat := 0

/-- The constant `BROADCAST_ADDRESS` (Node.h line 10). -/
def BROADCAST_ADDRESS : Nat := 0

/-- An observable access to a peripheral. -/
inductive Effect where
  | eepromRead (offset : Nat)
  | eepromWrite (offset value : Nat)
  | wireBegin (address : Nat)
  deriving DecidableEq, Repr

/-- The node together with everything its member functions can reach:
the EEPROM cells, the address the `Wire` transceiver currently answers to
(`none` before the first `Wire.begin`), memory outside the node object, the
state `H` of the pin and timer library, and the log of peripheral accesses
in the order in which they happened. -/
structure World (H : Type) where
  node : Node
  eeprom : Nat → Nat
  wire : Option Nat
  ram : Nat → Nat
  hw : H
  log : List Effect

/-- The functions of the Arduino core library and of `Memory.h` that `Node`
passes through to.  They act on the library's own state `H` only. -/
structure Platform (H : Type) where
  micros : H → Nat × H
  millis : H → Nat × H
  delayMicroseconds : Nat → H → H
  delay : Nat → H → H
  free_memory : H → Nat × H
  pinMode : Nat → Nat → H → H
  digitalRead : Nat → H → Nat × H
  digitalWrite : Nat → Nat → H → H
  analogRead : Nat → H → Nat × H
  analogWrite : Nat → Nat → H → H

/-- The call `EEPROM.read(offset)`: the stored byte. -/
def EEPROM_read {H : Type} (offset : Nat) (w : World H) : Nat × World H :=
  (to_uint8_t (w.eeprom offset), { w with log := w.log ++ [Effect.eepromRead offset] })

/-- The call `EEPROM.write(offset, value)`: stores the byte `value`. -/
def EEPROM_write {H : Type} (offset value : Nat) (w : World H) : World H :=
  { w with
    eeprom := Function.update w.eeprom offset (to_uint8_t value)
    log := w.log ++ [Effect.eepromWrite offset (to_uint8_t value)] }

/-- The call `Wire.begin(address)`: the transceiver (re)joins the bus as the
slave with this address. -/
def Wire_begin {H : Type} (address : Nat) (w : World H) : World H :=
  { w with wire := some address, log := w.log ++ [Effect.wireBegin address] }

/-- Reads the byte a pointer refers to; `none` when the pointer is outside
`output_buffer`. -/
def load {H : Type} (w : World H) : Ptr → Option Nat
  | .output_buffer i => if h : i < 20 then some (w.node.output_buffer ⟨i, h⟩) else none
  | .ram a => some (w.ram a)

/-- Stores a byte through a pointer; `none` when the pointer is outside
`output_buffer`. -/
def store {H : Type} (w : World H) (p : Ptr) (v : Nat) : Option (World H) :=
  match p with
  | .output_buffer i =>
    if h : i < 20 then
      some { w with node := { w.node with
        output_buffer := Function.update w.node.output_buffer ⟨i, h⟩ v } }
    else none
  | .ram a => some { w with ram := Function.update w.ram a v }

/-- The elements a `UInt8Array` view covers, read from the world. -/
def UInt8Array.elems {H : Type} (a : UInt8Array) (w : World H) : List (Option Nat) :=
  (List.range a.length).map (fun i => load w (a.data.add i))

/-- Reads a little-endian 32-bit word through a pointer. -/
def load32 {H : Type} (w : World H) (p : Ptr) : Option Nat :=
  match load w p, load w (p.add 1), load w (p.add 2), load w (p.add 3) with
  | some b0, some b1, some b2, some b3 =>
    some (b0 + 2 ^ 8 * b1 + 2 ^ 16 * b2 + 2 ^ 24 * b3)
  | _, _, _, _ => none

/-- The elements a `UInt32Array` view covers, read from the world. -/
def UInt32Array.elems {H : Type} (a : UInt32Array) (w : World H) : List (Option Nat) :=
  (List.range a.length).map (fun i => load32 w (a.data.add (4 * i)))

/-! ## Construction -/

/-- The constructor `Node::Node()` (Node.h lines 25-30), run on a world whose
`node` field is the still uninitialised storage of the object. -/
def Node_ctor {H : Type} (w : World H) : World H :=
  let i2c_array : UInt8Array := { length := sizeof_output_buffer, data := Ptr.output_buffer 0 }
  let w1 : World H := { w with node := { w.node with i2c_query_ := i2c_query.mk i2c_array } }
  let r := EEPROM_read EEPROM__I2C_ADDRESS w1
  let w2 : World H := { r.2 with node := { r.2.node with i2c_address_ := r.1 } }
  Wire_begin w2.node.i2c_address_ w2

/-- Loss of power: the EEPROM cells and the log of what happened are kept;
the transceiver is off, and the contents of the node object, of other memory
and of the library state are whatever they are after power-up. -/
def power_loss {H : Type} (w : World H) (node : Node) (ram : Nat → Nat) (hw : H) : World H :=
  { node := node, eeprom := w.eeprom, wire := none, ram := ram, hw := hw, log := w.log }

/-- A restart: power is lost and a fresh node is constructed. -/
def restart {H : Type} (w : World H) (node : Node) (ram : Nat → Nat) (hw : H) : World H :=
  Node_ctor (power_loss w node ram hw)

/-! ## Member functions -/

/-- `Node::microseconds` (Node.h line 32). -/
def microseconds {H : Type} (P : Platform H) (w : World H) : Nat × World H :=
  (to_uint32_t (P.micros w.hw).1, { w with hw := (P.micros w.hw).2 })

/-- `Node::milliseconds` (Node.h line 33). -/
def milliseconds {H : Type} (P : Platform H) (w : World H) : Nat × World H :=
  (to_uint32_t (P.millis w.hw).1, { w with hw := (P.millis w.hw).2 })

/-- `Node::delay_us` (Node.h line 34). -/
def delay_us {H : Type} (P : Platform H) (us : Nat) (w : World H) : World H :=
  if us > 0 then { w with hw := P.delayMicroseconds us w.hw } else w

/-- `Node::delay_ms` (Node.h line 35). -/
def delay_ms {H : Type} (P : Platform H) (ms : Nat) (w : World H) : World H :=
  if ms > 0 then { w with hw := P.delay ms w.hw } else w

/-- `Node::ram_free` (Node.h line 42). -/
def ram_free {H : Type} (P : Platform H) (w : World H) : Nat × World H :=
  (to_uint32_t (P.free_memory w.hw).1, { w with hw := (P.free_memory w.hw).2 })

/-- `Node::pin_mode` (Node.h line 43). -/
def pin_mode {H : Type} (P : Platform H) (pin mode : Nat) (w : World H) : World H :=
  { w with hw := P.pinMode pin mode w.hw }

/-- `Node::digital_read` (Node.h line 44). -/
def digital_read {H : Type} (P : Platform H) (pin : Nat) (w : World H) : Nat × World H :=
  (to_uint8_t (P.digitalRead pin w.hw).1, { w with hw := (P.digitalRead pin w.hw).2 })

/-- `Node::digital_write` (Node.h line 45). -/
def digital_write {H : Type} (P : Platform H) (pin value : Nat) (w : World H) : World H :=
  { w with hw := P.digitalWrite pin value w.hw }

/-- `Node::analog_read` (Node.h line 46). -/
def analog_read {H : Type} (P : Platform H) (pin : Nat) (w : World H) : Nat × World H :=
  (to_uint16_t (P.analogRead pin w.hw).1, { w with hw := (P.analogRead pin w.hw).2 })

/-- `Node::analog_write` (Node.h line 47). -/
def analog_write {H : Type} (P : Platform H) (pin value : Nat) (w : World H) : World H :=
  { w with hw := P.analogWrite pin value w.hw }

/-- `Node::i2c_address` (Node.h line 48). -/
def i2c_address {H : Type} (w : World H) : Nat × World H :=
  (w.node.i2c_address_, w)

/-- First statement of `Node::set_i2c_address` (Node.h line 50):
`i2c_address_ = address;`. -/
def set_i2c_address_assign {H : Type} (address : Nat) (w : World H) : World H :=
  { w with node := { w.node with i2c_address_ := address } }

/-- Second statement of `Node::set_i2c_address` (Node.h line 51):
`Wire.begin(address);`. -/
def set_i2c_address_begin {H : Type} (address : Nat) (w : World H) : World H :=
  Wire_begin address w

/-- Third statement of `Node::set_i2c_address` (Node.h line 54):
`EEPROM.write(EEPROM__I2C_ADDRESS, i2c_address_);`. -/
def set_i2c_address_persist {H : Type} (w : World H) : World H :=
  EEPROM_write EEPROM__I2C_ADDRESS w.node.i2c_address_ w

/-- `Node::set_i2c_address` (Node.h lines 49-56): the three statements in
program order, then `return address;`. -/
def set_i2c_address {H : Type} (address : Nat) (w : World H) : Nat × World H :=
  (address,
    set_i2c_address_persist (set_i2c_address_begin address (set_i2c_address_assign address w)))

/-- The worlds in which an execution of `set_i2c_address` can be cut short:
before the first statement, between consecutive statements, and after the
last one. -/
def set_i2c_address_points {H : Type} (address : Nat) (w : World H) : List (World H) :=
  [ w,
    set_i2c_address_assign address w,
    set_i2c_address_begin address (set_i2c_address_assign address w),
    set_i2c_address_persist (set_i2c_address_begin address (set_i2c_address_assign address w)) ]

/-- `Node::array_length` (Node.h line 58). -/
def array_length {H : Type} (array : UInt8Array) (w : World H) : Nat × World H :=
  (to_uint16_t array.length, w)

/-- `Node::echo_array` (Node.h line 59). -/
def echo_array {H : Type} (array : UInt32Array) (w : World H) : UInt32Array × World H :=
  (array, w)

/-- The bytes of the literal `"hello"`. -/
def hello : List Nat := [0x68, 0x65, 0x6C, 0x6C, 0x6F]

/-- The program-memory image of a string literal: its characters and the
terminating zero byte. -/
def PSTR (s : List Nat) : List Nat := s ++ [0]

/-- The stores `strcpy_P(dest, src)` performs, in order: every byte of `src`
up to and including the first zero byte, to consecutive addresses from
`dest`. -/
def strcpy_P_writes : Ptr → List Nat → List (Ptr × Nat)
  | _, [] => []
  | dest, c :: cs =>
    if c = 0 then [(dest, 0)] else (dest, c) :: strcpy_P_writes (dest.add 1) cs

/-- Performs a list of stores in order; `none` as soon as one of them is out
of bounds. -/
def do_writes {H : Type} : List (Ptr × Nat) → World H → Option (World H)
  | [], w => some w
  | (p, v) :: rest, w =>
    match store w p v with
    | some w1 => do_writes rest w1
    | none => none

/-- The call `strcpy_P(dest, src)`. -/
def strcpy_P {H : Type} (dest : Ptr) (src : List Nat) (w : World H) : Option (World H) :=
  do_writes (strcpy_P_writes dest src) w

/-- `Node::str_demo` (Node.h lines 61-82). -/
def str_demo {H : Type} (w : World H) : Option (UInt8Array × World H) :=
  let data : Ptr := Ptr.output_buffer 0
  match strcpy_P data (PSTR hello) w with
  | some w1 => some ({ length := 5, data := data }, w1)
  | none => none

/-- `Node::str_echo` (Node.h line 84). -/
def str_echo {H : Type} (msg : UInt8Array) (w : World H) : UInt8Array × World H :=
  (msg, w)

/-- `Node::get_millis` (Node.h line 86). -/
def get_millis {H : Type} (P : Platform H) (w : World H) : Nat × World H :=
  (to_uint32_t (P.millis w.hw).1, { w with hw := (P.millis w.hw).2 })

/-! ## Sequences of calls -/

/-- A call of one public member function of `Node`, with its arguments. -/
inductive Op where
  | microseconds
  | milliseconds
  | delay_us (us : Nat)
  | delay_ms (ms : Nat)
  | max_payload_size
  | ram_free
  | pin_mode (pin mode : Nat)
  | digital_read (pin : Nat)
  | digital_write (pin value : Nat)
  | analog_read (pin : Nat)
  | analog_write (pin value : Nat)
  | i2c_address
  | set_i2c_address (address : Nat)
  | array_length (array : UInt8Array)
  | echo_array (array : UInt32Array)
  | str_demo
  | str_echo (msg : UInt8Array)
  | get_millis
  deriving DecidableEq, Repr

/-- What a call returns. -/
inductive Ret where
  | void
  | value (n : Nat)
  | bytes (a : UInt8Array)
  | words (a : UInt32Array)
  deriving DecidableEq, Repr

/-- Whether the call is a call of `set_i2c_address`. -/
def Op.isSetAddress : Op → Bool
  | .set_i2c_address _ => true
  | _ => false

/-- Gives a scalar result and the new world the shape of a call result. -/
def ret_value {H : Type} (r : Nat × World H) : Option (Ret × World H) :=
  some (Ret.value r.1, r.2)

/-- Gives the new world of a `void` call the shape of a call result. -/
def ret_void {H : Type} (w : World H) : Option (Ret × World H) :=
  some (Ret.void, w)

/-- Runs one call. -/
def run {H : Type} (P : Platform H) (PACKET_SIZE : Nat) (op : Op) (w : World H) :
    Option (Ret × World H) :=
  match op with
  | .microseconds => ret_value (microseconds P w)
  | .milliseconds => ret_value (milliseconds P w)
  | .delay_us us => ret_void (delay_us P us w)
  | .delay_ms ms => ret_void (delay_ms P ms w)
  | .max_payload_size => ret_value (max_payload_size PACKET_SIZE, w)
  | .ram_free => ret_value (ram_free P w)
  | .pin_mode pin mode => ret_void (pin_mode P pin mode w)
  | .digital_read pin => ret_value (digital_read P pin w)
  | .digital_write pin value => ret_void (digital_write P pin value w)
  | .analog_read pin => ret_value (analog_read P pin w)
  | .analog_write pin value => ret_void (analog_write P pin value w)
  | .i2c_address => ret_value (i2c_address w)
  | .set_i2c_address address => ret_value (set_i2c_address address w)
  | .array_length array => ret_value (array_length array w)
  | .echo_array array => some (Ret.words (echo_array array w).1, (echo_array array w).2)
  | .str_demo =>
    match str_demo w with
    | some r => some (Ret.bytes r.1, r.2)
    | none => none
  | .str_echo msg => some (Ret.bytes (str_echo msg w).1, (str_echo msg w).2)
  | .get_millis => ret_value (get_millis P w)

/-- Runs a sequence of calls, one after the other. -/
def runAll {H : Type} (P : Platform H) (PACKET_SIZE : Nat) : List Op → World H → Option (World H)
  | [], w => some w
  | op :: ops, w =>
    match run P PACKET_SIZE op w with
    | some r => runAll P PACKET_SIZE ops r.2
    | none => none

/-! ## Frame decoding -/

/-- Modelled from the spec: a request frame as the Frame Codec sees it once
the 3 frame-boundary bytes have been matched (sections 3 and 6): the 2-byte
operation identifier, the 2-byte declared payload length, and the payload
bytes that were actually received after the header.  The decoder is not part
of `Node.h`, which only declares the callbacks `i2c_receive_event` and
`i2c_request_event`. -/
structure Frame where
  uuid : Nat
  declared_length : Nat
  received : List Nat
  deriving DecidableEq, Repr

/-- Modelled from the spec: the error taxonomy of section 7, as far as
decoding is concerned. -/
inductive CodecError where
  | FramingError
  deriving DecidableEq, Repr

/-- Modelled from the spec: a decoded request, ready for dispatch into the
Node Command Surface. -/
structure Request where
  uuid : Nat
  payload : List Nat
  deriving DecidableEq, Repr

/-- Modelled from the spec: the decode check of section 4.2, which is missing
from the source.  "On decode, the codec must reject (signal a framing error)
any frame whose declared payload length exceeds this maximum or exceeds the
number of bytes actually received." -/
def decode (max_payload : Nat) (f : Frame) : Except CodecError Request :=
  if max_payload < f.declared_length ∨ f.received.length < f.declared_length then
    Except.error CodecError.FramingError
  else
    Except.ok { uuid := f.uuid, payload := f.received.take f.declared_length }

/-- Modelled from the spec: one request cycle (sections 2 and 7), missing
from the source.  The frame is decoded against the node's advertised
`max_payload_size()`; a framing error drops the request and leaves the node
state as it is, otherwise the request is dispatched. -/
def handle_frame {H : Type} (dispatch : Request → World H → World H) (PACKET_SIZE : Nat)
    (f : Frame) (w : World H) : Except CodecError Request × World H :=
  match decode (max_payload_size PACKET_SIZE) f with
  | Except.error e => (Except.error e, w)
  | Except.ok r => (Except.ok r, dispatch r w)

/-! ## Observations and concrete test data -/

/-- The address the node is active under on the bus. -/
def bus_address {H : Type} (w : World H) : Option Nat := w.wire

/-- The address held in non-volatile storage: what `EEPROM.read` returns at
the reserved offset. -/
def persisted_address {H : Type} (w : World H) : Nat :=
  to_uint8_t (w.eeprom EEPROM__I2C_ADDRESS)

/-- A simulated pin and timer library whose state is the time in
microseconds since boot. -/
def simPlatform : Platform Nat where
  micros := fun t => (t, t)
  millis := fun t => (t / 1000, t)
  delayMicroseconds := fun us t => t + us
  delay := fun ms t => t + 1000 * ms
  free_memory := fun t => (270, t)
  pinMode := fun _ _ t => t
  digitalRead := fun _ t => (0, t)
  digitalWrite := fun _ _ t => t
  analogRead := fun _ t => (512, t)
  analogWrite := fun _ _ t => t

/-- Storage of a node object before its constructor has run. -/
def rawNode : Node :=
  { i2c_address_ := 0xAA
    output_buffer := fun _ => 0xFF
    i2c_query_ := i2c_query.mk { length := 0, data := Ptr.ram 0 } }

/-- A powered-up board whose EEPROM holds `address` at the reserved offset
and the erased value `0xFF` everywhere else; no node constructed yet. -/
def simBoard (address : Nat) : World Nat :=
  { node := rawNode
    eeprom := fun offset => if offset = EEPROM__I2C_ADDRESS then address else 0xFF
    wire := none
    ram := fun _ => 0
    hw := 0
    log := [] }

/-- A board on which the node has been constructed from EEPROM address
`address`. -/
def simWorld (address : Nat) : World Nat := Node_ctor (simBoard address)

/-! ## Auxiliary facts -/

/-- With room for the header, and a payload size that fits `uint32_t`, nothing
wraps around. -/
theorem max_payload_size_of_room (C : Nat) (h7 : 7 ≤ C) (hC : C - 7 < 2 ^ 32) :
    max_payload_size C = C - 7 := by
  unfold max_payload_size
  simp only [to_uint32_t, int_to_uint32_t, INT_MAX, size_t_sub, size_t_mul, to_size_t,
    sizeof_uint8_t, sizeof_uint16_t]
  split <;> omega

/-- Below the header size the subtraction wraps around modulo `2^16`. -/
theorem max_payload_size_wraps (C : Nat) (h7 : C < 7) :
    max_payload_size C = C + 65529 := by
  unfold max_payload_size
  simp only [to_uint32_t, int_to_uint32_t, INT_MAX, size_t_sub, size_t_mul, to_size_t,
    sizeof_uint8_t, sizeof_uint16_t]
  split <;> omega

/-- A payload size of `2^32` or more is cut down to 32 bits. -/
theorem max_payload_size_truncates (C : Nat) (hC : 2 ^ 32 ≤ C - 7) :
    max_payload_size C = (C - 7) % 2 ^ 32 := by
  unfold max_payload_size
  simp only [to_uint32_t, int_to_uint32_t, INT_MAX, size_t_sub, size_t_mul, to_size_t,
    sizeof_uint8_t, sizeof_uint16_t]
  split <;> omega

/-- The capacities at which `max_payload_size()` is the integer `C - 7` are
exactly those from 7 up to `2^32 + 6`. -/
theorem max_payload_size_exact_iff (C : Nat) :
    (max_payload_size C : Int) = (C : Int) - 7 ↔ 7 ≤ C ∧ C - 7 < 2 ^ 32 := by
  constructor
  · intro h
    by_cases h7 : 7 ≤ C
    · refine ⟨h7, ?_⟩
      by_contra hbig
      have ht := max_payload_size_truncates C (by omega)
      omega
    · have hw := max_payload_size_wraps C (by omega)
      omega
  · rintro ⟨h7, hC⟩
    have h := max_payload_size_of_room C h7 hC
    omega

/-- The call `str_demo()` always returns; its effect on the world, field by
field. -/
theorem str_demo_total {H : Type} (w : World H) :
    ∃ w1, str_demo w = some ({ length := 5, data := Ptr.output_buffer 0 }, w1) ∧
      w1.node.i2c_address_ = w.node.i2c_address_ ∧
      w1.node.i2c_query_ = w.node.i2c_query_ ∧
      w1.eeprom = w.eeprom ∧ w1.wire = w.wire ∧ w1.ram = w.ram ∧ w1.hw = w.hw ∧
      w1.log = w.log ∧
      load w1 (Ptr.output_buffer 0) = some 0x68 ∧
      load w1 (Ptr.output_buffer 1) = some 0x65 ∧
      load w1 (Ptr.output_buffer 2) = some 0x6C ∧
      load w1 (Ptr.output_buffer 3) = some 0x6C ∧
      load w1 (Ptr.output_buffer 4) = some 0x6F ∧
      load w1 (Ptr.output_buffer 5) = some 0 ∧
      ∀ i, 6 ≤ i → load w1 (Ptr.output_buffer i) = load w (Ptr.output_buffer i) := by
  simp [str_demo, strcpy_P, strcpy_P_writes, PSTR, hello, do_writes, store, Ptr.add, load,
    Function.update_apply, Fin.ext_iff, Fin.coe_ofNat_eq_mod]
  intro i hi
  by_cases h20 : i < 20
  · have h5 : ¬ (i = 5) := by omega
    have h4 : ¬ (i = 4) := by omega
    have h3 : ¬ (i = 3) := by omega
    have h2 : ¬ (i = 2) := by omega
    have h1 : ¬ (i = 1) := by omega
    have h0 : ¬ (i = 0) := by omega
    simp [h20, h0, h1, h2, h3, h4, h5]
  · simp [h20]

/-- Every call other than `set_i2c_address` returns and keeps the cached
address. -/
theorem run_keeps_address {H : Type} (P : Platform H) (C : Nat) (op : Op) (w : World H)
    (hop : Op.isSetAddress op = false) :
    ∃ r, run P C op w = some r ∧ r.2.node.i2c_address_ = w.node.i2c_address_ := by
  cases op with
  | set_i2c_address a => simp [Op.isSetAddress] at hop
  | str_demo =>
    obtain ⟨w1, h1, h2, _⟩ := str_demo_total w
    exact ⟨(Ret.bytes { length := 5, data := Ptr.output_buffer 0 }, w1), by simp [run, h1], h2⟩
  | delay_us us =>
    by_cases h : us > 0 <;> simp [run, ret_void, delay_us, h]
  | delay_ms ms =>
    by_cases h : ms > 0 <;> simp [run, ret_void, delay_ms, h]
  | _ =>
    simp [run, ret_value, ret_void, microseconds, milliseconds, ram_free, pin_mode,
      digital_read, digital_write, analog_read, analog_write, i2c_address, array_length,
      echo_array, str_echo, get_millis]

/-- Every sequence of calls other than `set_i2c_address` runs to completion and
keeps the cached address. -/
theorem runAll_keeps_address {H : Type} (P : Platform H) (C : Nat) (ops : List Op) :
    ∀ w : World H, (∀ op ∈ ops, Op.isSetAddress op = false) →
      ∃ w1, runAll P C ops w = some w1 ∧ w1.node.i2c_address_ = w.node.i2c_address_ := by
  induction ops with
  | nil => intro w _; exact ⟨w, rfl, rfl⟩
  | cons op ops ih =>
    intro w hno
    obtain ⟨r, hr, hra⟩ := run_keeps_address P C op w (hno op (List.mem_cons_self _ _))
    obtain ⟨w1, hw1, ha⟩ := ih r.2 (fun o ho => hno o (List.mem_cons_of_mem _ ho))
    exact ⟨w1, by simp [runAll, hr, hw1], by rw [ha, hra]⟩

/-! ## The claims -/

/-- C1 (counterexample): with `PACKET_SIZE = 0` the subtraction wraps around in
`size_t` and `max_payload_size()` returns 65529, which is not the integer
`0 - 7`; with `PACKET_SIZE = 4294967303` the difference `2^32` does not fit the
return type `uint32_t` and `max_payload_size()` returns 0. -/
theorem max_payload_size_out_of_range :
    max_payload_size 0 = 65529 ∧
    ¬ ((max_payload_size 0 : Int) = (0 : Int) - 7) ∧
    max_payload_size 4294967303 = 0 ∧
    ¬ ((max_payload_size 4294967303 : Int) = (4294967303 : Int) - 7) := by
  have h0 := max_payload_size_wraps 0 (by omega)
  have h1 := max_payload_size_truncates 4294967303 (by omega)
  omega

/-- C1 (amended): for every capacity `C` that has room for the 7 header bytes
and whose payload size `C - 7` fits the return type `uint32_t`, that is for
`7 ≤ C ≤ 4294967302`, `max_payload_size()` returns the integer `C - 7`: `C`
minus 3 frame-boundary bytes, 2 identifier bytes and 2 payload-length bytes;
in particular it returns 20 when `C = 27`. -/
theorem max_payload_size_eq_capacity_minus_header (C : Nat) (h7 : 7 ≤ C)
    (hC : C ≤ 4294967302) :
    max_payload_size C = C - 7 ∧
    (max_payload_size C : Int) = (C : Int) - 7 ∧
    max_payload_size C + (3 * sizeof_uint8_t + sizeof_uint16_t + sizeof_uint16_t) = C ∧
    max_payload_size 27 = 20 := by
  have h := max_payload_size_of_room C h7 (by omega)
  have h27 := max_payload_size_of_room 27 (by omega) (by omega)
  refine ⟨h, ?_, ?_, h27⟩
  · rw [h]; omega
  · rw [h]; simp only [sizeof_uint8_t, sizeof_uint16_t]; omega

/-- C1 (witness): the amended statement at `C = 27`. -/
theorem max_payload_size_eq_capacity_minus_header_witness :
    (7 ≤ 27 ∧ 27 ≤ 4294967302) ∧
    (max_payload_size 27 = 27 - 7 ∧
      (max_payload_size 27 : Int) = ((27 : Nat) : Int) - 7 ∧
      max_payload_size 27 + (3 * sizeof_uint8_t + sizeof_uint16_t + sizeof_uint16_t) = 27 ∧
      max_payload_size 27 = 20) :=
  ⟨by decide, max_payload_size_eq_capacity_minus_header 27 (by decide) (by decide)⟩

/-- C2: `echo_array` and `str_echo` return the view they were given, with the
same length and the same data pointer, hence the same elements, and leave
the world (node state included) as it was; the same holds when they are called
through `run`. -/
theorem echo_round_trip {H : Type} (P : Platform H) (C : Nat) (array : UInt32Array)
    (msg : UInt8Array) (w : World H) :
    (echo_array array w).1.length = array.length ∧
    (echo_array array w).1.data = array.data ∧
    (echo_array array w).1.elems (echo_array array w).2 = array.elems w ∧
    (echo_array array w).2 = w ∧
    (str_echo msg w).1.length = msg.length ∧
    (str_echo msg w).1.data = msg.data ∧
    (str_echo msg w).1.elems (str_echo msg w).2 = msg.elems w ∧
    (str_echo msg w).2 = w ∧
    run P C (Op.echo_array array) w = some (Ret.words array, w) ∧
    run P C (Op.str_echo msg) w = some (Ret.bytes msg, w) := by
  simp [echo_array, str_echo, run]

/-- C3: for every byte `a`, `set_i2c_address(a)` followed by `i2c_address()`
returns `a`, and so does `i2c_address()` on a node constructed after a restart
from the EEPROM contents the call left behind. -/
theorem set_then_get_i2c_address {H : Type} (a : Nat) (ha : a < 256) (w : World H)
    (node : Node) (ram : Nat → Nat) (hw : H) :
    (i2c_address (set_i2c_address a w).2).1 = a ∧
    (i2c_address (restart (set_i2c_address a w).2 node ram hw)).1 = a := by
  simp [i2c_address, set_i2c_address, set_i2c_address_assign, set_i2c_address_begin,
    set_i2c_address_persist, restart, power_loss, Node_ctor, EEPROM_read, EEPROM_write,
    Wire_begin, to_uint8_t, EEPROM__I2C_ADDRESS, Nat.mod_eq_of_lt ha]

/-- C3 (witness): the broadcast address 0 on a simulated board. -/
theorem set_then_get_i2c_address_witness :
    BROADCAST_ADDRESS < 256 ∧
    ((i2c_address (set_i2c_address BROADCAST_ADDRESS (simWorld 5)).2).1 = BROADCAST_ADDRESS ∧
      (i2c_address (restart (set_i2c_address BROADCAST_ADDRESS (simWorld 5)).2 rawNode
        (fun _ => 0) 0)).1 = BROADCAST_ADDRESS) :=
  ⟨by decide, set_then_get_i2c_address BROADCAST_ADDRESS (by decide) (simWorld 5) rawNode
    (fun _ => 0) 0⟩

/-- C4: for every byte `a`, `set_i2c_address(a)` first sets the in-memory
address to `a` (no peripheral access yet), then re-initialises the bus
transceiver with `a` (EEPROM still untouched), then writes `a` to EEPROM
offset 0, so that the peripheral log grows by exactly `Wire.begin(a)` followed
by `EEPROM.write(0, a)`; it returns `a`, a value in 0..255, changes no other
EEPROM byte and no byte of `output_buffer`. -/
theorem set_i2c_address_effects {H : Type} (a : Nat) (ha : a < 256) (w : World H) :
    (set_i2c_address a w).1 = a ∧ (set_i2c_address a w).1 < 256 ∧
    (set_i2c_address a w).2 =
      set_i2c_address_persist (set_i2c_address_begin a (set_i2c_address_assign a w)) ∧
    (set_i2c_address_assign a w).node.i2c_address_ = a ∧
    (set_i2c_address_assign a w).log = w.log ∧
    (set_i2c_address_assign a w).wire = w.wire ∧
    (set_i2c_address_assign a w).eeprom = w.eeprom ∧
    (set_i2c_address_begin a (set_i2c_address_assign a w)).wire = some a ∧
    (set_i2c_address_begin a (set_i2c_address_assign a w)).log =
      w.log ++ [Effect.wireBegin a] ∧
    (set_i2c_address_begin a (set_i2c_address_assign a w)).eeprom = w.eeprom ∧
    (set_i2c_address a w).2.log =
      w.log ++ [Effect.wireBegin a, Effect.eepromWrite EEPROM__I2C_ADDRESS a] ∧
    (set_i2c_address a w).2.eeprom EEPROM__I2C_ADDRESS = a ∧
    (∀ offset, offset ≠ EEPROM__I2C_ADDRESS →
      (set_i2c_address a w).2.eeprom offset = w.eeprom offset) ∧
    (set_i2c_address a w).2.node.i2c_address_ = a ∧
    (set_i2c_address a w).2.wire = some a ∧
    (set_i2c_address a w).2.node.output_buffer = w.node.output_buffer ∧
    EEPROM__I2C_ADDRESS = 0 := by
  simp [set_i2c_address, set_i2c_address_assign, set_i2c_address_begin,
    set_i2c_address_persist, EEPROM_write, Wire_begin, to_uint8_t, EEPROM__I2C_ADDRESS,
    Nat.mod_eq_of_lt ha]
  refine ⟨ha, ?_⟩
  intro offset hoff
  simp [Function.update_apply, hoff]

/-- C4 (witness): address 0x2A on a simulated board. -/
theorem set_i2c_address_effects_witness :
    42 < 256 ∧
    (set_i2c_address 42 (simWorld 5)).1 = 42 ∧
    (set_i2c_address 42 (simWorld 5)).2.log =
      (simWorld 5).log ++ [Effect.wireBegin 42, Effect.eepromWrite EEPROM__I2C_ADDRESS 42] :=
  ⟨by decide, (set_i2c_address_effects 42 (by decide) (simWorld 5)).1,
    (set_i2c_address_effects 42 (by decide) (simWorld 5)).2.2.2.2.2.2.2.2.2.2.1⟩

/-- C5 (counterexample): on a board where the bus-active and the persisted
address are both 1, `set_i2c_address(2)` passes through a point (after
`Wire.begin(2)`, before the EEPROM write) at which the bus-active address is 2
and the persisted address is still 1. -/
theorem set_i2c_address_mismatch_point :
    bus_address (simWorld 1) = some 1 ∧ persisted_address (simWorld 1) = 1 ∧
    ∃ p ∈ set_i2c_address_points 2 (simWorld 1),
      bus_address p = some 2 ∧ persisted_address p = 1 ∧
      bus_address p ≠ some (persisted_address p) :=
  ⟨by decide, by decide,
    set_i2c_address_begin 2 (set_i2c_address_assign 2 (simWorld 1)),
    by simp [set_i2c_address_points], by decide, by decide, by decide⟩

/-- C5 (amended): starting from a state in which the bus-active and the
persisted address are both `a`, at every point at which `set_i2c_address(b)`
can be interrupted each of the two addresses is `a` or `b`.  They are equal to
each other before the first statement and after the first statement (both
`a`) and after the last statement (both `b`); between `Wire.begin(b)` and the
EEPROM write the bus-active address is `b` while the persisted address is
still `a`.  A restart from any of these points makes the bus-active, the
cached and the persisted address equal again. -/
theorem set_i2c_address_interruption {H : Type} (a b : Nat) (hb : b < 256) (w : World H)
    (hbus : bus_address w = some a) (hpers : persisted_address w = a) :
    (∀ p ∈ set_i2c_address_points b w,
      (bus_address p = some a ∨ bus_address p = some b) ∧
      (persisted_address p = a ∨ persisted_address p = b)) ∧
    (set_i2c_address_points b w).map (fun p => (bus_address p, persisted_address p)) =
      [(some a, a), (some a, a), (some b, a), (some b, b)] ∧
    (∀ p ∈ set_i2c_address_points b w, ∀ (node : Node) (ram : Nat → Nat) (hw : H),
      bus_address (restart p node ram hw) = some (persisted_address (restart p node ram hw)) ∧
      (i2c_address (restart p node ram hw)).1 = persisted_address (restart p node ram hw) ∧
      persisted_address (restart p node ram hw) = persisted_address p) := by
  simp only [bus_address, persisted_address, to_uint8_t, EEPROM__I2C_ADDRESS] at hbus hpers
  norm_num at hpers
  simp [set_i2c_address_points, set_i2c_address_assign, set_i2c_address_begin,
    set_i2c_address_persist, EEPROM_write, Wire_begin, to_uint8_t, EEPROM__I2C_ADDRESS,
    bus_address, persisted_address, restart, power_loss, Node_ctor, EEPROM_read, i2c_address,
    Nat.mod_eq_of_lt hb, hbus, hpers]

/-- C5 (witness): changing the address from 1 to 2 on a simulated board. -/
theorem set_i2c_address_interruption_witness :
    (2 < 256 ∧ bus_address (simWorld 1) = some 1 ∧ persisted_address (simWorld 1) = 1) ∧
    (set_i2c_address_points 2 (simWorld 1)).map
        (fun p => (bus_address p, persisted_address p)) =
      [(some 1, 1), (some 1, 1), (some 2, 1), (some 2, 2)] :=
  ⟨by decide,
    (set_i2c_address_interruption 1 2 (by decide) (simWorld 1) (by decide) (by decide)).2.1⟩

/-- C6: every finite sequence of `Node` calls that contains no
`set_i2c_address` call runs to completion and leaves the value returned by
`i2c_address()` as it was; two consecutive getter calls return the same
value; and the getter leaves the whole world, hence the EEPROM, the bus
transceiver and the log of peripheral accesses, untouched. -/
theorem i2c_address_only_set_mutates {H : Type} (P : Platform H) (C : Nat) (ops : List Op)
    (w : World H) (hno : ∀ op ∈ ops, Op.isSetAddress op = false) :
    (∃ w1, runAll P C ops w = some w1 ∧ (i2c_address w1).1 = (i2c_address w).1) ∧
    (i2c_address (i2c_address w).2).1 = (i2c_address w).1 ∧
    (i2c_address w).2 = w ∧
    (i2c_address w).2.log = w.log ∧
    run P C Op.i2c_address w = some (Ret.value w.node.i2c_address_, w) := by
  obtain ⟨w1, h1, h2⟩ := runAll_keeps_address P C ops w hno
  exact ⟨⟨w1, h1, h2⟩, rfl, rfl, rfl, rfl⟩

/-- C6 (witness): one call of every member function other than
`set_i2c_address`, on a simulated board with address 7. -/
theorem i2c_address_only_set_mutates_witness :
    (∀ op ∈ [Op.microseconds, Op.milliseconds, Op.delay_us 3, Op.delay_ms 0,
        Op.max_payload_size, Op.ram_free, Op.pin_mode 13 1, Op.digital_read 2,
        Op.digital_write 13 1, Op.analog_read 0, Op.analog_write 9 128, Op.i2c_address,
        Op.array_length { length := 3, data := Ptr.ram 16 },
        Op.echo_array { length := 2, data := Ptr.ram 32 }, Op.str_demo,
        Op.str_echo { length := 5, data := Ptr.output_buffer 0 }, Op.get_millis],
      Op.isSetAddress op = false) ∧
    ∃ w1, runAll simPlatform 27
        [Op.microseconds, Op.milliseconds, Op.delay_us 3, Op.delay_ms 0,
          Op.max_payload_size, Op.ram_free, Op.pin_mode 13 1, Op.digital_read 2,
          Op.digital_write 13 1, Op.analog_read 0, Op.analog_write 9 128, Op.i2c_address,
          Op.array_length { length := 3, data := Ptr.ram 16 },
          Op.echo_array { length := 2, data := Ptr.ram 32 }, Op.str_demo,
          Op.str_echo { length := 5, data := Ptr.output_buffer 0 }, Op.get_millis]
        (simWorld 7) = some w1 ∧
      (i2c_address w1).1 = (i2c_address (simWorld 7)).1 :=
  ⟨by decide, (i2c_address_only_set_mutates simPlatform 27 _ (simWorld 7) (by decide)).1⟩

/-- C7: from every node state `str_demo()` returns, and what it returns is a
view of length 5 whose data pointer is `&output_buffer[0]`; after the call the
five bytes the view covers are those of "hello", 0x68 0x65 0x6C 0x6C 0x6F,
whatever the buffer held before. -/
theorem str_demo_returns_hello {H : Type} (w : World H) :
    (str_demo w).map (fun r => r.1) = some { length := 5, data := Ptr.output_buffer 0 } ∧
    (str_demo w).map (fun r => r.1.elems r.2) =
      some [some 0x68, some 0x65, some 0x6C, some 0x6C, some 0x6F] ∧
    hello = (String.toList "hello").map Char.toNat := by
  obtain ⟨w1, h, _, _, _, _, _, _, _, b0, b1, b2, b3, b4, _, _⟩ := str_demo_total w
  refine ⟨by simp [h], ?_, by decide⟩
  simp [h, UInt8Array.elems, List.range_succ, Ptr.add, b0, b1, b2, b3, b4]

/-- C8 (counterexample): with `PACKET_SIZE = 27` the buffer of a constructed
node has 20 bytes (index 19 is inside, index 20 is not) and the view handed to
the bus query object has length 20, not 27; it is `max_payload_size()` that is
20 for this `PACKET_SIZE`. -/
theorem output_buffer_not_packet_size :
    sizeof_output_buffer ≠ 27 ∧
    (Node_ctor (simBoard 5)).node.i2c_query_.array.length ≠ 27 ∧
    load (Node_ctor (simBoard 5)) (Ptr.output_buffer 19) = some 0xFF ∧
    load (Node_ctor (simBoard 5)) (Ptr.output_buffer 20) = none ∧
    max_payload_size 27 = 20 := by
  decide

/-- C8 (amended): for every value of `PACKET_SIZE` and every world the
constructor runs in, the node's buffer has exactly `sizeof(output_buffer) = 20`
bytes and the view the constructor hands to the bus query object is the view
of length 20 starting at `output_buffer[0]`; these sizes equal `PACKET_SIZE`
exactly when `PACKET_SIZE = 20`. -/
theorem output_buffer_capacity {H : Type} (PACKET_SIZE : Nat) (w : World H) :
    sizeof_output_buffer = 20 ∧
    (∀ i, (load (Node_ctor w) (Ptr.output_buffer i)).isSome = true ↔ i < 20) ∧
    (Node_ctor w).node.i2c_query_.array = { length := 20, data := Ptr.output_buffer 0 } ∧
    ((sizeof_output_buffer = PACKET_SIZE ∧
        (Node_ctor w).node.i2c_query_.array.length = PACKET_SIZE) ↔ PACKET_SIZE = 20) := by
  refine ⟨rfl, ?_, rfl, ?_⟩
  · intro i
    by_cases h : i < 20 <;> simp [load, h]
  · simp [Node_ctor, Wire_begin, EEPROM_read, sizeof_output_buffer]
    omega

/-- C9: against the decoder modelled from the spec, a frame `f` whose declared
payload length equals `max_payload_size()` (and whose payload bytes were all
received) is accepted and dispatched, and a frame `g` whose declared payload
length is `max_payload_size() + 1`, or exceeds the number of bytes received,
is rejected as a `FramingError` before dispatch, with the world (cached
address, output buffer and EEPROM included) unchanged. -/
theorem decode_boundary {H : Type} (dispatch : Request → World H → World H)
    (PACKET_SIZE : Nat) (f g : Frame) (w : World H)
    (hf : f.declared_length = max_payload_size PACKET_SIZE)
    (hrecv : f.declared_length ≤ f.received.length)
    (hg : g.declared_length = max_payload_size PACKET_SIZE + 1 ∨
      g.received.length < g.declared_length) :
    handle_frame dispatch PACKET_SIZE f w =
      (Except.ok { uuid := f.uuid, payload := f.received.take f.declared_length },
        dispatch { uuid := f.uuid, payload := f.received.take f.declared_length } w) ∧
    handle_frame dispatch PACKET_SIZE g w = (Except.error CodecError.FramingError, w) ∧
    (handle_frame dispatch PACKET_SIZE g w).2.node.i2c_address_ = w.node.i2c_address_ ∧
    (handle_frame dispatch PACKET_SIZE g w).2.node.output_buffer = w.node.output_buffer ∧
    (handle_frame dispatch PACKET_SIZE g w).2.eeprom = w.eeprom := by
  have hacc : decode (max_payload_size PACKET_SIZE) f =
      Except.ok { uuid := f.uuid, payload := f.received.take f.declared_length } := by
    unfold decode
    rw [if_neg]
    omega
  have hrej : decode (max_payload_size PACKET_SIZE) g =
      Except.error CodecError.FramingError := by
    unfold decode
    rw [if_pos]
    omega
  simp [handle_frame, hacc, hrej]

/-- C9 (witness): `PACKET_SIZE = 27`, so the ceiling is 20: a 20-byte request
is dispatched (dispatch stands for an address change to 9), a 21-byte request
is dropped and the world stays as it was. -/
theorem decode_boundary_witness :
    ((Frame.mk 1 20 (List.replicate 20 0)).declared_length = max_payload_size 27 ∧
      (Frame.mk 1 20 (List.replicate 20 0)).declared_length ≤
        (Frame.mk 1 20 (List.replicate 20 0)).received.length ∧
      ((Frame.mk 1 21 (List.replicate 21 0)).declared_length = max_payload_size 27 + 1 ∨
        (Frame.mk 1 21 (List.replicate 21 0)).received.length <
          (Frame.mk 1 21 (List.replicate 21 0)).declared_length)) ∧
    handle_frame (fun _ v => (set_i2c_address 9 v).2) 27
        (Frame.mk 1 21 (List.replicate 21 0)) (simWorld 5) =
      (Except.error CodecError.FramingError, simWorld 5) :=
  ⟨by decide,
    (decode_boundary (fun _ v => (set_i2c_address 9 v).2) 27
      (Frame.mk 1 20 (List.replicate 20 0)) (Frame.mk 1 21 (List.replicate 21 0))
      (simWorld 5) (by decide) (by decide) (by decide)).2.1⟩

/-- C10: `str_demo()` is exactly six stores into `output_buffer`, in order: the
five letters of "hello" to indices 0 through 4 and a terminating zero byte to
index 5, which is outside the length-5 view it returns.  Every store is below
the buffer size 20, so the call returns; afterwards bytes 0..4 hold the
letters and byte 5 holds zero whatever the buffer held before, bytes 6..19 of
the buffer and the cached bus address are as before, and so is everything else
in the world. -/
theorem str_demo_writes {H : Type} (w : World H) :
    str_demo w =
      (do_writes
        [(Ptr.output_buffer 0, 0x68), (Ptr.output_buffer 1, 0x65), (Ptr.output_buffer 2, 0x6C),
          (Ptr.output_buffer 3, 0x6C), (Ptr.output_buffer 4, 0x6F), (Ptr.output_buffer 5, 0)]
        w).map (fun w1 => ({ length := 5, data := Ptr.output_buffer 0 }, w1)) ∧
    strcpy_P_writes (Ptr.output_buffer 0) (PSTR hello) =
      [(Ptr.output_buffer 0, 0x68), (Ptr.output_buffer 1, 0x65), (Ptr.output_buffer 2, 0x6C),
        (Ptr.output_buffer 3, 0x6C), (Ptr.output_buffer 4, 0x6F), (Ptr.output_buffer 5, 0)] ∧
    (strcpy_P_writes (Ptr.output_buffer 0) (PSTR hello)).length = 6 ∧
    (∀ pv ∈ strcpy_P_writes (Ptr.output_buffer 0) (PSTR hello),
      ∃ i, pv.1 = Ptr.output_buffer i ∧ i < sizeof_output_buffer) ∧
    ∃ r, str_demo w = some r ∧
      r.1.length = 5 ∧ r.1.data = Ptr.output_buffer 0 ∧
      (r.1.elems r.2).length = 5 ∧
      load r.2 (Ptr.output_buffer 0) = some 0x68 ∧
      load r.2 (Ptr.output_buffer 1) = some 0x65 ∧
      load r.2 (Ptr.output_buffer 2) = some 0x6C ∧
      load r.2 (Ptr.output_buffer 3) = some 0x6C ∧
      load r.2 (Ptr.output_buffer 4) = some 0x6F ∧
      load r.2 (Ptr.output_buffer 5) = some 0 ∧
      (∀ i, 6 ≤ i → load r.2 (Ptr.output_buffer i) = load w (Ptr.output_buffer i)) ∧
      r.2.node.i2c_address_ = w.node.i2c_address_ ∧
      r.2.node.i2c_query_ = w.node.i2c_query_ ∧
      r.2.eeprom = w.eeprom ∧ r.2.wire = w.wire ∧ r.2.ram = w.ram ∧ r.2.hw = w.hw ∧
      r.2.log = w.log := by
  have hlist : strcpy_P_writes (Ptr.output_buffer 0) (PSTR hello) =
      [(Ptr.output_buffer 0, 0x68), (Ptr.output_buffer 1, 0x65), (Ptr.output_buffer 2, 0x6C),
        (Ptr.output_buffer 3, 0x6C), (Ptr.output_buffer 4, 0x6F), (Ptr.output_buffer 5, 0)] := by
    decide
  obtain ⟨w1, h, ha, hq, he, hwi, hr, hh, hl, b0, b1, b2, b3, b4, b5, hrest⟩ :=
    str_demo_total w
  refine ⟨?_, hlist, by decide, ?_, (_, w1), h, rfl, rfl, ?_, b0, b1, b2, b3, b4, b5, hrest,
    ha, hq, he, hwi, hr, hh, hl⟩
  · unfold str_demo strcpy_P
    simp only [hlist]
    cases do_writes
      [(Ptr.output_buffer 0, 0x68), (Ptr.output_buffer 1, 0x65), (Ptr.output_buffer 2, 0x6C),
        (Ptr.output_buffer 3, 0x6C), (Ptr.output_buffer 4, 0x6F), (Ptr.output_buffer 5, 0)] w <;>
      rfl
  · simp [strcpy_P_writes, PSTR, hello, Ptr.add, sizeof_output_buffer]
  · simp [UInt8Array.elems]

end BaseNodeRpc
